import Mathlib

/-!
Verification of the PayPal order gateway of the Locket Photo Print repository
(`src/app/api/paypal/create-order/route.ts`, the Next.js route handler) against
its natural-language specification.

The route handler is embedded shallowly:

* JavaScript runtime values appearing in JSON bodies are the inductive `JsValue`
  (JSON `null`, booleans, numbers, strings, arrays, objects); the absent value
  `undefined` is `Option.none` at use sites.  JSON numbers are modelled as
  integers, which covers every number distinction the handler makes (its only
  numeric observation is falsiness, i.e. equality with 0).
* The two outbound `fetch` calls are modelled with an oracle
  `World : OutboundRequest → FetchResponse` supplied as a parameter; every
  function additionally returns the list of outbound requests it issued, in
  order, so that short-circuiting and call counts are provable.
* A thrown JavaScript `Error` is `Except.error msg` carrying the `message`
  string (every value thrown in this file is an `Error`, so the catch block of
  the handler, `error instanceof Error ? error.message : ...`, always selects
  the message).
-/

/-- A JavaScript runtime value as it can appear in a parsed JSON body. -/
inductive JsValue where
  | null : JsValue
  | bool (b : Bool) : JsValue
  | num (n : Int) : JsValue
  | str (s : String) : JsValue
  | arr (elems : List JsValue) : JsValue
  | obj (fields : List (String × JsValue)) : JsValue

/-- JavaScript truthiness of a defined value (`Boolean(v)`).  `null`, `false`,
`0` and `""` are falsy; every array and object is truthy. -/
def truthy : JsValue → Bool
  | .null => false
  | .bool b => b
  | .num n => n != 0
  | .str s => s != ""
  | .arr _ => true
  | .obj _ => true

/-- JavaScript truthiness where `none` stands for `undefined` (which is falsy). -/
def truthyOpt : Option JsValue → Bool
  | none => false
  | some v => truthy v

/-- Property read `x[k]` on a value known not to be `null`: objects yield the
field when present, every other value (primitives, arrays) yields `undefined`
for the keys the handler uses. -/
def jlookup (j : JsValue) (k : String) : Option JsValue :=
  match j with
  | .obj fs => fs.lookup k
  | _ => none

/-- Property read `x[k]` including the `null` case, which throws a `TypeError`
(surfaced as an `Except.error` carrying the engine message). -/
def jsGet (j : JsValue) (k : String) : Except String (Option JsValue) :=
  match j with
  | .null => Except.error ("Cannot read properties of null (reading " ++ k ++ ")")
  | .obj fs => Except.ok (fs.lookup k)
  | _ => Except.ok none

mutual
/-- Template-literal string conversion `String(v)` of a defined value. -/
def jsValueToString : JsValue → String
  | .null => "null"
  | .bool true => "true"
  | .bool false => "false"
  | .num n => toString n
  | .str s => s
  | .arr xs => jsArrayJoin xs
  | .obj _ => "[object Object]"

/-- `Array.prototype.toString`: elements joined by commas, `null` printed empty. -/
def jsArrayJoin : List JsValue → String
  | [] => ""
  | [x] => jsElemToString x
  | x :: y :: xs => jsElemToString x ++ "," ++ jsArrayJoin (y :: xs)

/-- An array element inside a join: `null` becomes the empty string. -/
def jsElemToString : JsValue → String
  | .null => ""
  | .bool b => jsValueToString (.bool b)
  | .num n => jsValueToString (.num n)
  | .str s => jsValueToString (.str s)
  | .arr xs => jsValueToString (.arr xs)
  | .obj fs => jsValueToString (.obj fs)
end

/-- Template-literal string conversion where `none` is `undefined`. -/
def jsOptToString : Option JsValue → String
  | none => "undefined"
  | some v => jsValueToString v

/-- Escape of one character inside a JSON string literal. -/
def jsonEscapeChar (c : Char) : String :=
  if c = '"' then "\\\""
  else if c = '\\' then "\\\\"
  else if c = '\n' then "\\n"
  else if c = '\t' then "\\t"
  else if c = '\r' then "\\r"
  else String.mk [c]

/-- A JSON string literal: the escaped text between double quotes. -/
def jsonQuote (s : String) : String :=
  "\"" ++ String.join (s.toList.map jsonEscapeChar) ++ "\""

mutual
/-- `JSON.stringify` of a defined value (the handler only stringifies the order
body it builds itself, whose fields are all defined). -/
def jsonStringify : JsValue → String
  | .null => "null"
  | .bool true => "true"
  | .bool false => "false"
  | .num n => toString n
  | .str s => jsonQuote s
  | .arr xs => "[" ++ jsonStringifyElems xs ++ "]"
  | .obj fs => "\x7b" ++ jsonStringifyFields fs ++ "\x7d"

/-- Comma-separated stringification of array elements. -/
def jsonStringifyElems : List JsValue → String
  | [] => ""
  | [x] => jsonStringify x
  | x :: y :: xs => jsonStringify x ++ "," ++ jsonStringifyElems (y :: xs)

/-- Comma-separated `"key":value` stringification of object fields. -/
def jsonStringifyFields : List (String × JsValue) → String
  | [] => ""
  | [(k, v)] => jsonQuote k ++ ":" ++ jsonStringify v
  | (k, v) :: f :: fs => jsonQuote k ++ ":" ++ jsonStringify v ++ "," ++ jsonStringifyFields (f :: fs)
end

/-- The base64 alphabet used by the Buffer base64 conversion. -/
def b64Table : List Char :=
  "ABCDEFGHIJKLMNOPQRSTUVWXYZabcdefghijklmnopqrstuvwxyz0123456789+/".toList

/-- The base64 digit for a 6-bit value. -/
def b64Char (n : Nat) : Char := b64Table.getD n 'A'

/-- Base64 encoding of a byte list, three bytes at a time, with padding. -/
def base64Chunks : List UInt8 → String
  | [] => ""
  | [a] =>
      let x := a.toNat
      String.mk [b64Char (x / 4), b64Char (x % 4 * 16)] ++ "=="
  | [a, b] =>
      let x := a.toNat * 256 + b.toNat
      String.mk [b64Char (x / 1024), b64Char (x / 16 % 64), b64Char (x % 16 * 4)] ++ "="
  | a :: b :: c :: rest =>
      let x := a.toNat * 65536 + b.toNat * 256 + c.toNat
      String.mk [b64Char (x / 262144), b64Char (x / 4096 % 64), b64Char (x / 64 % 64),
        b64Char (x % 64)] ++ base64Chunks rest

/-- Encoding performed by `Buffer.from` followed by the base64 conversion:
base64 of the UTF-8 bytes of `s`. -/
def base64Encode (s : String) : String := base64Chunks s.toUTF8.toList

/-- The environment variables the module reads at load time
(`process.env.NEXT_PUBLIC_PAYPAL_CLIENT_ID`, `process.env.PAYPAL_CLIENT_SECRET`),
plus `PAYPAL_MODE`, which is available in the deployment environment but which
`route.ts` never reads.  `none` is an unset variable. -/
structure Env where
  clientId : Option String
  clientSecret : Option String
  paypalMode : Option String
deriving DecidableEq

/-- Falsiness of an environment variable value (`!x` on `string | undefined`):
unset or the empty string. -/
def strFalsy : Option String → Bool
  | none => true
  | some s => s == ""

/-- Both credentials set and non-empty (the guard of `getPayPalAccessToken`
passes). -/
def credsPresent (env : Env) : Bool :=
  !(strFalsy env.clientId || strFalsy env.clientSecret)

/-- One outbound `fetch` call as issued by the handler. -/
structure OutboundRequest where
  url : String
  method : String
  headers : List (String × String)
  body : String
deriving DecidableEq

/-- The observable part of a `fetch` response: `ok`, `await response.text()`,
and `await response.json()` (the parse of the body text, or the thrown parse
error message when the body is not JSON). -/
structure FetchResponse where
  ok : Bool
  text : String
  jsonBody : Except String JsValue

/-- The network: what the upstream processor answers to each request. -/
def World := OutboundRequest → FetchResponse

/-- Constant `base` (route.ts line 5): the base URL is hardcoded to the
sandbox endpoint. -/
def base : String := "https://api-m.sandbox.paypal.com"

/-- The token-endpoint request built by `getPayPalAccessToken` (lines 11-18):
POST to the token endpoint under `base` with HTTP Basic auth over
base64(`clientId:clientSecret`) and the fixed grant-type body. -/
def tokenRequest (env : Env) : OutboundRequest :=
  { url := base ++ "/v1/oauth2/token"
    method := "POST"
    headers := [("Authorization",
      "Basic " ++ base64Encode (env.clientId.getD "" ++ ":" ++ env.clientSecret.getD ""))]
    body := "grant_type=client_credentials" }

/-- `getPayPalAccessToken()` (route.ts lines 7-27).  Throws
`MISSING_PAYPAL_API_CREDENTIALS` when either credential is falsy (before any
network call); on a non-ok response throws
`Failed to get access token: <response text>`; otherwise returns
`data.access_token` (`none` when the parsed body has no such field).  The
second component is the list of outbound requests issued. -/
def getPayPalAccessToken (env : Env) (world : World) :
    Except String (Option JsValue) × List OutboundRequest :=
  if strFalsy env.clientId || strFalsy env.clientSecret then
    (Except.error "MISSING_PAYPAL_API_CREDENTIALS", [])
  else
    let req := tokenRequest env
    let resp := world req
    if !resp.ok then
      (Except.error ("Failed to get access token: " ++ resp.text), [req])
    else
      match resp.jsonBody with
      | Except.error msg => (Except.error msg, [req])
      | Except.ok data =>
        match jsGet data "access_token" with
        | Except.error msg => (Except.error msg, [req])
        | Except.ok tok => (Except.ok tok, [req])

/-- The order body built by `createPayPalOrder` (route.ts lines 33-47): capture
intent, one USD purchase unit carrying the amount value and description, and a
shipping preference derived from `requiresShipping`. -/
def orderBodyJson (amount descr : JsValue) (requiresShipping : Bool) : JsValue :=
  .obj
    [ ("intent", .str "CAPTURE")
    , ("purchase_units", .arr
        [ .obj
            [ ("amount", .obj [("currency_code", .str "USD"), ("value", amount)])
            , ("description", descr) ] ])
    , ("application_context", .obj
        [ ("shipping_preference",
            .str (if requiresShipping then "GET_FROM_FILE" else "NO_SHIPPING")) ]) ]

/-- The order-creation request sent by `createPayPalOrder` (lines 49-56): POST
to the checkout-orders endpoint under `base` with the bearer token interpolated into the
Authorization header and the JSON-stringified order body. -/
def orderRequest (tok : Option JsValue) (amount descr : JsValue)
    (requiresShipping : Bool) : OutboundRequest :=
  { url := base ++ "/v2/checkout/orders"
    method := "POST"
    headers := [("Content-Type", "application/json"),
      ("Authorization", "Bearer " ++ jsOptToString tok)]
    body := jsonStringify (orderBodyJson amount descr requiresShipping) }

/-- `createPayPalOrder(amount, description, requiresShipping)` (route.ts lines
29-64).  First acquires a token (propagating its failure and its request
trace); on a non-ok order response throws
`Failed to create order: <response text>`; on success returns the parsed order
body.  The TypeScript annotations `amount: string, description: string` are
not enforced at runtime, so both arguments are arbitrary `JsValue`s here. -/
def createPayPalOrder (env : Env) (world : World) (amount descr : JsValue)
    (requiresShipping : Bool) : Except String JsValue × List OutboundRequest :=
  match getPayPalAccessToken env world with
  | (Except.error msg, tr) => (Except.error msg, tr)
  | (Except.ok accessToken, tr) =>
    let req := orderRequest accessToken amount descr requiresShipping
    let resp := world req
    if !resp.ok then
      (Except.error ("Failed to create order: " ++ resp.text), tr ++ [req])
    else
      match resp.jsonBody with
      | Except.error msg => (Except.error msg, tr ++ [req])
      | Except.ok order => (Except.ok order, tr ++ [req])

/-- An HTTP response produced by the handler: status plus JSON body
(`NextResponse.json(x)` is status 200 with body `x`;
`NextResponse.json(x, \x7b status: s \x7d)` is status `s`). -/
structure HttpResponse where
  status : Nat
  body : JsValue

/-- The exact 400 validation body (route.ts line 71). -/
def missingFieldsBody : JsValue :=
  .obj [("error", .str "Missing amount or description in request body")]

/-- The message of the `TypeError` thrown by
`const \x7b amount, ... \x7d = await request.json()` when the parsed body is
`null` (the exact text is engine-specific; only its presence matters here). -/
def nullDestructureMsg : String :=
  "Cannot destructure property amount of (intermediate value) as it is null."

/-- `POST(request)` (route.ts lines 66-81).  `requestJson` is the outcome of
`await request.json()`: `Except.error m` when the body is not valid JSON (the
message `m` of the thrown `SyntaxError` propagates to the catch block).  The
destructuring throws on a `null` body; otherwise falsy `amount` or
`description` yields the 400 validation response before any network call, and
every error thrown below is caught and wrapped as a 500 `\x7b error \x7d`
envelope. -/
def POST (env : Env) (world : World) (requestJson : Except String JsValue) :
    HttpResponse × List OutboundRequest :=
  match requestJson with
  | Except.error msg => (⟨500, .obj [("error", .str msg)]⟩, [])
  | Except.ok .null => (⟨500, .obj [("error", .str nullDestructureMsg)]⟩, [])
  | Except.ok j =>
    let amount := jlookup j "amount"
    let descr := jlookup j "description"
    let requiresShipping := jlookup j "requiresShipping"
    if !truthyOpt amount || !truthyOpt descr then
      (⟨400, missingFieldsBody⟩, [])
    else
      match createPayPalOrder env world (amount.getD .null) (descr.getD .null)
          (truthyOpt requiresShipping) with
      | (Except.ok order, tr) => (⟨200, order⟩, tr)
      | (Except.error msg, tr) => (⟨500, .obj [("error", .str msg)]⟩, tr)

/-- The `amount` value the handler passes to `createPayPalOrder` (defined
whenever validation passed, hence the default is never reached there). -/
def postedAmount (j : JsValue) : JsValue := (jlookup j "amount").getD .null

/-- The `description` value the handler passes to `createPayPalOrder`. -/
def postedDescr (j : JsValue) : JsValue := (jlookup j "description").getD .null

/-- The boolean `!!requiresShipping` the handler passes to
`createPayPalOrder`. -/
def postedShipping (j : JsValue) : Bool := truthyOpt (jlookup j "requiresShipping")

/-- The `shipping_preference` value found inside a JSON order body under
`application_context`. -/
def shippingPrefOf (body : JsValue) : Option JsValue :=
  (jlookup body "application_context").bind (fun c => jlookup c "shipping_preference")

/-- An environment with both credentials configured and no mode flag set. -/
def envSome : Env := { clientId := some "id", clientSecret := some "secret", paypalMode := none }

/-- An environment with both credentials configured and `PAYPAL_MODE=live`. -/
def envLive : Env :=
  { clientId := some "id", clientSecret := some "secret", paypalMode := some "live" }

/-- An environment with the client identifier unset. -/
def envNoCreds : Env := { clientId := none, clientSecret := some "secret", paypalMode := none }

/-- The order object of the worked scenario in the spec. -/
def sampleOrder : JsValue := .obj [("id", .str "ORDER123"), ("status", .str "CREATED")]

/-- The valid request body of the worked scenario in the spec. -/
def sampleBody : JsValue :=
  .obj [("amount", .str "10.00"), ("description", .str "4x6 prints")]

/-- A valid request body that also sets `requiresShipping: true`. -/
def sampleBodyShipping : JsValue :=
  .obj [("amount", .str "10.00"), ("description", .str "4x6 prints"),
    ("requiresShipping", .bool true)]

/-- A cooperating upstream: the token endpoint answers with an access token,
every other request with the sample order. -/
def worldSuccess : World := fun req =>
  if req.url = base ++ "/v1/oauth2/token" then
    { ok := true, text := "", jsonBody := Except.ok (.obj [("access_token", .str "TOK")]) }
  else
    { ok := true, text := "", jsonBody := Except.ok sampleOrder }

/-- An upstream whose every response is a failure carrying body text `t`. -/
def worldFail (t : String) : World := fun _ =>
  { ok := false, text := t, jsonBody := Except.error "Unexpected token" }

/-- Inversion of `getPayPalAccessToken`: it either fails fast on missing
credentials with no outbound request, or issues exactly the token request and
then fails, or issues exactly the token request and succeeds (which requires an
ok response). -/
theorem getToken_cases (env : Env) (world : World) :
    (getPayPalAccessToken env world = (Except.error "MISSING_PAYPAL_API_CREDENTIALS", []) ∧
      credsPresent env = false) ∨
    (∃ e, getPayPalAccessToken env world = (Except.error e, [tokenRequest env])) ∨
    (∃ tok, getPayPalAccessToken env world = (Except.ok tok, [tokenRequest env]) ∧
      (world (tokenRequest env)).ok = true) := by
  unfold getPayPalAccessToken
  split
  · rename_i h
    exact Or.inl ⟨rfl, by simp [credsPresent, h]⟩
  · rename_i h
    dsimp only
    split
    · exact Or.inr (Or.inl ⟨_, rfl⟩)
    · rename_i hok
      split
      · exact Or.inr (Or.inl ⟨_, rfl⟩)
      · split
        · exact Or.inr (Or.inl ⟨_, rfl⟩)
        · exact Or.inr (Or.inr ⟨_, rfl, by simpa using hok⟩)

/-- Inversion of `createPayPalOrder`: its request trace is empty (missing
credentials), the token request alone (token exchange failed), or the token
request followed by the order-creation request; a successful result implies the
full two-request trace with the order parsed from the order response. -/
theorem createOrder_cases (env : Env) (world : World) (a d : JsValue) (s : Bool) :
    (createPayPalOrder env world a d s =
        (Except.error "MISSING_PAYPAL_API_CREDENTIALS", []) ∧ credsPresent env = false) ∨
    (∃ e, createPayPalOrder env world a d s = (Except.error e, [tokenRequest env])) ∨
    (∃ tok e, createPayPalOrder env world a d s =
        (Except.error e, [tokenRequest env, orderRequest tok a d s])) ∨
    (∃ tok order, createPayPalOrder env world a d s =
        (Except.ok order, [tokenRequest env, orderRequest tok a d s]) ∧
      (world (orderRequest tok a d s)).jsonBody = Except.ok order ∧
      (world (tokenRequest env)).ok = true) := by
  rcases getToken_cases env world with ⟨h, hc⟩ | ⟨e, h⟩ | ⟨tok, h, hok⟩
  · exact Or.inl ⟨by simp [createPayPalOrder, h], hc⟩
  · exact Or.inr (Or.inl ⟨e, by simp [createPayPalOrder, h]⟩)
  · unfold createPayPalOrder
    rw [h]
    dsimp only
    split
    · exact Or.inr (Or.inr (Or.inl ⟨tok, _, rfl⟩))
    · split
      · exact Or.inr (Or.inr (Or.inl ⟨tok, _, rfl⟩))
      · rename_i hjson
        exact Or.inr (Or.inr (Or.inr ⟨tok, _, rfl, hjson, hok⟩))

/-- Computation of a successful token exchange: with credentials present, an ok
token response parsing to `tokenData`, and `access_token` read as `tok`, the
token call returns `tok` after exactly the token request. -/
theorem getToken_ok (env : Env) (world : World) (tokenData : JsValue) (tok : Option JsValue)
    (hcred : credsPresent env = true)
    (htok : (world (tokenRequest env)).ok = true)
    (htokj : (world (tokenRequest env)).jsonBody = Except.ok tokenData)
    (hacc : jsGet tokenData "access_token" = Except.ok tok) :
    getPayPalAccessToken env world = (Except.ok tok, [tokenRequest env]) := by
  have hcred' : (strFalsy env.clientId || strFalsy env.clientSecret) = false := by
    simpa [credsPresent] using hcred
  unfold getPayPalAccessToken
  simp [hcred', htok, htokj, hacc]

/-- Whenever the token exchange succeeds, `createPayPalOrder` issues exactly
the token request followed by the order-creation request, whatever the order
response is. -/
theorem createOrder_trace_of_token (env : Env) (world : World) (A D : JsValue) (S : Bool)
    (tok : Option JsValue)
    (hg : getPayPalAccessToken env world = (Except.ok tok, [tokenRequest env])) :
    (createPayPalOrder env world A D S).2 = [tokenRequest env, orderRequest tok A D S] := by
  unfold createPayPalOrder
  rw [hg]
  dsimp only
  split
  · rfl
  · split <;> rfl

/-- For a request body that passes validation, the request trace of the
handler is exactly the trace of `createPayPalOrder` at the destructured
arguments. -/
theorem POST_trace_valid (env : Env) (world : World) (j : JsValue)
    (hnull : j ≠ JsValue.null)
    (ha : truthyOpt (jlookup j "amount") = true)
    (hd : truthyOpt (jlookup j "description") = true) :
    (POST env world (Except.ok j)).2 =
      (createPayPalOrder env world (postedAmount j) (postedDescr j) (postedShipping j)).2 := by
  rcases hres : createPayPalOrder env world (postedAmount j) (postedDescr j) (postedShipping j)
    with ⟨res, tr⟩
  simp only [postedAmount, postedDescr, postedShipping] at hres
  cases j with
  | null => exact absurd rfl hnull
  | obj fs => cases res <;> simp [POST, ha, hd, hres]
  | bool b => simp [truthyOpt, jlookup] at ha
  | num n => simp [truthyOpt, jlookup] at ha
  | str s => simp [truthyOpt, jlookup] at ha
  | arr xs => simp [truthyOpt, jlookup] at ha

/-- The shipping preference inside the order body built by `createPayPalOrder`
is `GET_FROM_FILE` for `requiresShipping = true` and `NO_SHIPPING` otherwise. -/
theorem shippingPref_eval (a d : JsValue) (s : Bool) :
    shippingPrefOf (orderBodyJson a d s) =
      some (JsValue.str (if s then "GET_FROM_FILE" else "NO_SHIPPING")) := by
  cases s <;> rfl

/-- C1 (counterexample): the parsed JSON body `null` has no `amount` property,
yet the handler answers 500, not 400: the destructuring
`const ... = await request.json()` throws a `TypeError` on `null` before the
validation check runs. -/
theorem c1_null_body_counterexample :
    jlookup JsValue.null "amount" = none ∧
    (POST envSome worldSuccess (Except.ok JsValue.null)).1.status = 500 := ⟨rfl, rfl⟩

/-- C1 (amended): for every POST request whose parsed JSON body is not JSON
`null` and is missing `amount` or missing `description`, the handler returns
status 400 with exactly the missing-fields error body and issues no outbound
request (so order creation is never attempted). -/
theorem c1_missing_field_gives_400 (env : Env) (world : World) (j : JsValue)
    (hnull : j ≠ JsValue.null)
    (hmiss : jlookup j "amount" = none ∨ jlookup j "description" = none) :
    POST env world (Except.ok j) = (⟨400, missingFieldsBody⟩, []) := by
  cases j with
  | null => exact absurd rfl hnull
  | bool b => simp [POST, jlookup, truthyOpt]
  | num n => simp [POST, jlookup, truthyOpt]
  | str s => simp [POST, jlookup, truthyOpt]
  | arr xs => simp [POST, jlookup, truthyOpt]
  | obj fs =>
      rcases hmiss with h | h <;> simp only [jlookup] at h <;>
        simp [POST, jlookup, truthyOpt, h]

/-- C1 (witness): the worked scenario `(description only, amount missing)`
yields exactly the 400 validation response with no outbound request. -/
theorem c1_missing_field_gives_400_witness :
    POST envSome worldSuccess
        (Except.ok (JsValue.obj [("description", JsValue.str "prints")])) =
      (⟨400, missingFieldsBody⟩, []) :=
  c1_missing_field_gives_400 envSome worldSuccess
    (JsValue.obj [("description", JsValue.str "prints")])
    (fun h => nomatch h) (Or.inl rfl)

/-- C2: for every request with truthy `amount` and `description`, when the
token exchange succeeds and the order-creation call succeeds with parsed order
object `O`, the handler returns status 200 with body exactly `O` (no field
renamed, added or omitted), after exactly the token request and the
order-creation request. -/
theorem c2_success_returns_order_verbatim (env : Env) (world : World)
    (j tokenData O : JsValue) (tok : Option JsValue)
    (hnull : j ≠ JsValue.null)
    (ha : truthyOpt (jlookup j "amount") = true)
    (hd : truthyOpt (jlookup j "description") = true)
    (hcred : credsPresent env = true)
    (htok : (world (tokenRequest env)).ok = true)
    (htokj : (world (tokenRequest env)).jsonBody = Except.ok tokenData)
    (hacc : jsGet tokenData "access_token" = Except.ok tok)
    (hook : (world (orderRequest tok (postedAmount j) (postedDescr j) (postedShipping j))).ok
      = true)
    (hoj : (world (orderRequest tok (postedAmount j) (postedDescr j) (postedShipping j))).jsonBody
      = Except.ok O) :
    POST env world (Except.ok j) =
      (⟨200, O⟩, [tokenRequest env,
        orderRequest tok (postedAmount j) (postedDescr j) (postedShipping j)]) := by
  have hcred' : (strFalsy env.clientId || strFalsy env.clientSecret) = false := by
    simpa [credsPresent] using hcred
  cases j with
  | null => exact absurd rfl hnull
  | obj fs =>
      simp only [POST, postedAmount, postedDescr, postedShipping] at *
      simp [ha, hd, createPayPalOrder, getPayPalAccessToken, hcred', htok, htokj, hacc,
        hook, hoj]
  | bool b => simp [truthyOpt, jlookup] at ha
  | num n => simp [truthyOpt, jlookup] at ha
  | str s => simp [truthyOpt, jlookup] at ha
  | arr xs => simp [truthyOpt, jlookup] at ha

/-- C2 (witness): the worked scenario of the spec: amount `10.00`, description
`4x6 prints`, cooperating upstream; the handler returns 200 with the sample
order verbatim. -/
theorem c2_success_returns_order_verbatim_witness :
    POST envSome worldSuccess (Except.ok sampleBody) =
      (⟨200, sampleOrder⟩, [tokenRequest envSome,
        orderRequest (some (JsValue.str "TOK")) (postedAmount sampleBody)
          (postedDescr sampleBody) (postedShipping sampleBody)]) :=
  c2_success_returns_order_verbatim envSome worldSuccess sampleBody
    (JsValue.obj [("access_token", JsValue.str "TOK")]) sampleOrder
    (some (JsValue.str "TOK")) (fun h => nomatch h) rfl rfl rfl rfl rfl rfl rfl rfl

/-- C3 (counterexample): on a token-exchange failure the caller-visible error
message is not independent of the upstream error body: with upstream body
`SECRET_UPSTREAM_A` the caller sees
`Failed to get access token: SECRET_UPSTREAM_A` (the full upstream payload),
and changing only the upstream body changes the caller-visible response. -/
theorem c3_upstream_leak_counterexample :
    (POST envSome (worldFail "SECRET_UPSTREAM_A") (Except.ok sampleBody)).1.body =
      JsValue.obj [("error", JsValue.str "Failed to get access token: SECRET_UPSTREAM_A")] ∧
    ¬ ((POST envSome (worldFail "SECRET_UPSTREAM_A") (Except.ok sampleBody)).1.body =
      (POST envSome (worldFail "SECRET_UPSTREAM_B") (Except.ok sampleBody)).1.body) := by
  refine ⟨rfl, ?_⟩
  intro h
  rw [show (POST envSome (worldFail "SECRET_UPSTREAM_A") (Except.ok sampleBody)).1.body =
        JsValue.obj [("error", JsValue.str "Failed to get access token: SECRET_UPSTREAM_A")]
      from rfl,
    show (POST envSome (worldFail "SECRET_UPSTREAM_B") (Except.ok sampleBody)).1.body =
        JsValue.obj [("error", JsValue.str "Failed to get access token: SECRET_UPSTREAM_B")]
      from rfl] at h
  injection h with h1
  injection h1 with h2 h3
  injection h2 with h4 h5
  injection h5 with h6
  exact absurd h6 (by decide)

/-- C3 (amended): for every upstream token-exchange failure on a valid request,
the caller-visible response is status 500 with error message exactly
`Failed to get access token: ` followed by the full upstream response body
text: the raw upstream payload is embedded in the caller-visible error, and no
inspection of the body for known error codes takes place. -/
theorem c3_error_embeds_upstream_body (env : Env) (world : World) (j : JsValue)
    (hnull : j ≠ JsValue.null)
    (ha : truthyOpt (jlookup j "amount") = true)
    (hd : truthyOpt (jlookup j "description") = true)
    (hcred : credsPresent env = true)
    (htokfail : (world (tokenRequest env)).ok = false) :
    (POST env world (Except.ok j)).1 =
      ⟨500, JsValue.obj [("error", JsValue.str
        ("Failed to get access token: " ++ (world (tokenRequest env)).text))]⟩ := by
  have hcred' : (strFalsy env.clientId || strFalsy env.clientSecret) = false := by
    simpa [credsPresent] using hcred
  cases j with
  | null => exact absurd rfl hnull
  | obj fs =>
      simp [POST, ha, hd, createPayPalOrder, getPayPalAccessToken, hcred', htokfail]
  | bool b => simp [truthyOpt, jlookup] at ha
  | num n => simp [truthyOpt, jlookup] at ha
  | str s => simp [truthyOpt, jlookup] at ha
  | arr xs => simp [truthyOpt, jlookup] at ha

/-- C3 (witness): with the upstream answering failure body `SECRET_UPSTREAM_A`,
the caller receives the 500 response embedding that body. -/
theorem c3_error_embeds_upstream_body_witness :
    (POST envSome (worldFail "SECRET_UPSTREAM_A") (Except.ok sampleBody)).1 =
      ⟨500, JsValue.obj [("error", JsValue.str
        ("Failed to get access token: " ++
          (worldFail "SECRET_UPSTREAM_A" (tokenRequest envSome)).text))]⟩ :=
  c3_error_embeds_upstream_body envSome (worldFail "SECRET_UPSTREAM_A") sampleBody
    (fun h => nomatch h) rfl rfl rfl rfl

/-- C4: for every valid request whose `requiresShipping` field is boolean or
absent (its declared type), when the token exchange succeeds the handler issues
the order-creation request built from the order body, whose shipping preference
is `GET_FROM_FILE` exactly when `requiresShipping` is `true`, and `NO_SHIPPING`
when it is `false` or absent. -/
theorem c4_shipping_preference (env : Env) (world : World) (j tokenData : JsValue)
    (tok : Option JsValue)
    (hnull : j ≠ JsValue.null)
    (ha : truthyOpt (jlookup j "amount") = true)
    (hd : truthyOpt (jlookup j "description") = true)
    (hcred : credsPresent env = true)
    (htok : (world (tokenRequest env)).ok = true)
    (htokj : (world (tokenRequest env)).jsonBody = Except.ok tokenData)
    (hacc : jsGet tokenData "access_token" = Except.ok tok)
    (hrs : jlookup j "requiresShipping" = none ∨
      ∃ b, jlookup j "requiresShipping" = some (JsValue.bool b)) :
    (POST env world (Except.ok j)).2 =
      [tokenRequest env,
        orderRequest tok (postedAmount j) (postedDescr j) (postedShipping j)] ∧
    (shippingPrefOf (orderBodyJson (postedAmount j) (postedDescr j) (postedShipping j)) =
        some (JsValue.str "GET_FROM_FILE") ↔
      jlookup j "requiresShipping" = some (JsValue.bool true)) ∧
    (jlookup j "requiresShipping" = some (JsValue.bool true) ∨
      shippingPrefOf (orderBodyJson (postedAmount j) (postedDescr j) (postedShipping j)) =
        some (JsValue.str "NO_SHIPPING")) := by
  have hship : ∀ s : Bool, postedShipping j = s →
      shippingPrefOf (orderBodyJson (postedAmount j) (postedDescr j) (postedShipping j)) =
        some (JsValue.str (if s then "GET_FROM_FILE" else "NO_SHIPPING")) := by
    intro s hs
    rw [hs, shippingPref_eval]
  refine ⟨?_, ?_, ?_⟩
  · rw [POST_trace_valid env world j hnull ha hd]
    exact createOrder_trace_of_token env world _ _ _ tok
      (getToken_ok env world tokenData tok hcred htok htokj hacc)
  · rcases hrs with h | ⟨b, h⟩
    · rw [hship false (by simp [postedShipping, h, truthyOpt])]
      constructor
      · intro hx
        injection hx with h1
        injection h1 with h2
        exact absurd h2 (by decide)
      · intro hx
        rw [hx] at h
        cases h
    · cases b
      · rw [hship false (by simp [postedShipping, h, truthyOpt, truthy])]
        constructor
        · intro hx
          injection hx with h1
          injection h1 with h2
          exact absurd h2 (by decide)
        · intro hx
          rw [hx] at h
          injection h with h1
          injection h1 with h2
          exact absurd h2.symm (by decide)
      · rw [hship true (by simp [postedShipping, h, truthyOpt, truthy])]
        exact ⟨fun _ => h, fun _ => rfl⟩
  · rcases hrs with h | ⟨b, h⟩
    · exact Or.inr (hship false (by simp [postedShipping, h, truthyOpt]))
    · cases b
      · exact Or.inr (hship false (by simp [postedShipping, h, truthyOpt, truthy]))
      · exact Or.inl h

/-- C4 (witness): with `requiresShipping: true` in the request body, the order
body sent upstream carries shipping preference `GET_FROM_FILE`. -/
theorem c4_shipping_preference_witness :
    (POST envSome worldSuccess (Except.ok sampleBodyShipping)).2 =
      [tokenRequest envSome,
        orderRequest (some (JsValue.str "TOK")) (postedAmount sampleBodyShipping)
          (postedDescr sampleBodyShipping) (postedShipping sampleBodyShipping)] ∧
    (shippingPrefOf (orderBodyJson (postedAmount sampleBodyShipping)
          (postedDescr sampleBodyShipping) (postedShipping sampleBodyShipping)) =
        some (JsValue.str "GET_FROM_FILE") ↔
      jlookup sampleBodyShipping "requiresShipping" = some (JsValue.bool true)) ∧
    (jlookup sampleBodyShipping "requiresShipping" = some (JsValue.bool true) ∨
      shippingPrefOf (orderBodyJson (postedAmount sampleBodyShipping)
          (postedDescr sampleBodyShipping) (postedShipping sampleBodyShipping)) =
        some (JsValue.str "NO_SHIPPING")) :=
  c4_shipping_preference envSome worldSuccess sampleBodyShipping
    (JsValue.obj [("access_token", JsValue.str "TOK")]) (some (JsValue.str "TOK"))
    (fun h => nomatch h) rfl rfl rfl rfl rfl rfl (Or.inr ⟨true, rfl⟩)

/-- C5: for every valid request, when the token endpoint answers a non-ok
response the handler issues no further outbound request (the trace is exactly
the token request, with no order-creation call) and surfaces a 500 failure. -/
theorem c5_token_failure_short_circuits (env : Env) (world : World) (j : JsValue)
    (hnull : j ≠ JsValue.null)
    (ha : truthyOpt (jlookup j "amount") = true)
    (hd : truthyOpt (jlookup j "description") = true)
    (hcred : credsPresent env = true)
    (htokfail : (world (tokenRequest env)).ok = false) :
    (POST env world (Except.ok j)).2 = [tokenRequest env] ∧
    (POST env world (Except.ok j)).1.status = 500 := by
  have hcred' : (strFalsy env.clientId || strFalsy env.clientSecret) = false := by
    simpa [credsPresent] using hcred
  cases j with
  | null => exact absurd rfl hnull
  | obj fs =>
      constructor <;>
        simp [POST, ha, hd, createPayPalOrder, getPayPalAccessToken, hcred', htokfail]
  | bool b => simp [truthyOpt, jlookup] at ha
  | num n => simp [truthyOpt, jlookup] at ha
  | str s => simp [truthyOpt, jlookup] at ha
  | arr xs => simp [truthyOpt, jlookup] at ha

/-- C5 (witness): with an upstream that rejects the token request, the handler
issues exactly one outbound request and answers 500. -/
theorem c5_token_failure_short_circuits_witness :
    (POST envSome (worldFail "denied") (Except.ok sampleBody)).2 = [tokenRequest envSome] ∧
    (POST envSome (worldFail "denied") (Except.ok sampleBody)).1.status = 500 :=
  c5_token_failure_short_circuits envSome (worldFail "denied") sampleBody
    (fun h => nomatch h) rfl rfl rfl rfl

/-- C6: for every valid request, when the client identifier or the client
secret is unset or empty, the handler issues no outbound request at all and
returns status 500 with the configuration error message
`MISSING_PAYPAL_API_CREDENTIALS`. -/
theorem c6_missing_credentials_fail_fast (env : Env) (world : World) (j : JsValue)
    (hnull : j ≠ JsValue.null)
    (ha : truthyOpt (jlookup j "amount") = true)
    (hd : truthyOpt (jlookup j "description") = true)
    (hcred : strFalsy env.clientId = true ∨ strFalsy env.clientSecret = true) :
    POST env world (Except.ok j) =
      (⟨500, JsValue.obj [("error", JsValue.str "MISSING_PAYPAL_API_CREDENTIALS")]⟩, []) := by
  have hcred' : (strFalsy env.clientId || strFalsy env.clientSecret) = true := by
    rcases hcred with h | h <;> simp [h]
  cases j with
  | null => exact absurd rfl hnull
  | obj fs =>
      simp [POST, ha, hd, createPayPalOrder, getPayPalAccessToken, hcred']
  | bool b => simp [truthyOpt, jlookup] at ha
  | num n => simp [truthyOpt, jlookup] at ha
  | str s => simp [truthyOpt, jlookup] at ha
  | arr xs => simp [truthyOpt, jlookup] at ha

/-- C6 (witness): with the client identifier unset, the valid sample request
yields the configuration 500 response and an empty request trace. -/
theorem c6_missing_credentials_fail_fast_witness :
    POST envNoCreds worldSuccess (Except.ok sampleBody) =
      (⟨500, JsValue.obj [("error", JsValue.str "MISSING_PAYPAL_API_CREDENTIALS")]⟩, []) :=
  c6_missing_credentials_fail_fast envNoCreds worldSuccess sampleBody
    (fun h => nomatch h) rfl rfl (Or.inl rfl)

/-- C7 (counterexample): with the operating-mode flag set to `live` in the
environment, both outbound calls still go to the sandbox endpoint: the base URL
is not selected by the mode flag. -/
theorem c7_live_mode_counterexample :
    envLive.paypalMode = some "live" ∧
    ((POST envLive worldSuccess (Except.ok sampleBody)).2.map OutboundRequest.url) =
      ["https://api-m.sandbox.paypal.com/v1/oauth2/token",
        "https://api-m.sandbox.paypal.com/v2/checkout/orders"] := ⟨rfl, rfl⟩

/-- C7 (amended): the base URL used for both processor calls is the hardcoded
sandbox endpoint; the handler is wholly independent of the environment-sourced
mode flag, and every outbound request targets one of the two sandbox URLs. -/
theorem c7_base_url_hardcoded_sandbox (env : Env) (world : World)
    (rb : Except String JsValue) (m : Option String) :
    base = "https://api-m.sandbox.paypal.com" ∧
    POST { env with paypalMode := m } world rb = POST env world rb ∧
    ∀ r ∈ (POST env world rb).2,
      r.url = "https://api-m.sandbox.paypal.com/v1/oauth2/token" ∨
      r.url = "https://api-m.sandbox.paypal.com/v2/checkout/orders" := by
  refine ⟨rfl, ?_, ?_⟩
  · cases env
    rfl
  · intro r hr
    rcases rb with msg | j
    · simp [POST] at hr
    · cases j with
      | null => simp [POST] at hr
      | bool b => simp [POST, jlookup, truthyOpt] at hr
      | num n => simp [POST, jlookup, truthyOpt] at hr
      | str s => simp [POST, jlookup, truthyOpt] at hr
      | arr xs => simp [POST, jlookup, truthyOpt] at hr
      | obj fs =>
          by_cases hv : (!truthyOpt (jlookup (JsValue.obj fs) "amount") ||
              !truthyOpt (jlookup (JsValue.obj fs) "description")) = true
          · simp [POST, hv] at hr
          · rcases createOrder_cases env world
                ((jlookup (JsValue.obj fs) "amount").getD .null)
                ((jlookup (JsValue.obj fs) "description").getD .null)
                (truthyOpt (jlookup (JsValue.obj fs) "requiresShipping")) with
              ⟨hc, _⟩ | ⟨e, hc⟩ | ⟨tok, e, hc⟩ | ⟨tok, order, hc, hj, _⟩
            · simp [POST, hv, hc] at hr
            · simp [POST, hv, hc] at hr
              subst hr
              exact Or.inl rfl
            · simp [POST, hv, hc] at hr
              rcases hr with rfl | rfl
              · exact Or.inl rfl
              · exact Or.inr rfl
            · simp [POST, hv, hc] at hr
              rcases hr with rfl | rfl
              · exact Or.inl rfl
              · exact Or.inr rfl

/-- C7 (amended, witness): at the sample request the handler behaves
identically whether the mode flag is `live` or unset. -/
theorem c7_base_url_hardcoded_sandbox_witness :
    POST { envSome with paypalMode := some "live" } worldSuccess (Except.ok sampleBody) =
      POST envSome worldSuccess (Except.ok sampleBody) :=
  (c7_base_url_hardcoded_sandbox envSome worldSuccess (Except.ok sampleBody)
    (some "live")).2.1

/-- C8: for every environment, upstream behaviour and request-body outcome, the
response of the handler is either a non-200 response whose body is an object
with the single string field `error`, or a 200 response whose body is exactly
the JSON the upstream order-creation call returned (never both, never a
partial result). -/
theorem c8_response_envelope_invariant (env : Env) (world : World)
    (rb : Except String JsValue) :
    (∃ m, (POST env world rb).1.body = JsValue.obj [("error", JsValue.str m)] ∧
      (POST env world rb).1.status ≠ 200) ∨
    ((POST env world rb).1.status = 200 ∧ ∃ r, r ∈ (POST env world rb).2 ∧
      r.url = base ++ "/v2/checkout/orders" ∧
      (world r).jsonBody = Except.ok ((POST env world rb).1.body)) := by
  rcases rb with msg | j
  · exact Or.inl ⟨msg, rfl, by simp [POST]⟩
  · cases j with
    | null => exact Or.inl ⟨nullDestructureMsg, rfl, by simp [POST]⟩
    | bool b =>
        exact Or.inl ⟨"Missing amount or description in request body",
          by simp [POST, jlookup, truthyOpt, missingFieldsBody], by simp [POST, jlookup, truthyOpt]⟩
    | num n =>
        exact Or.inl ⟨"Missing amount or description in request body",
          by simp [POST, jlookup, truthyOpt, missingFieldsBody], by simp [POST, jlookup, truthyOpt]⟩
    | str s =>
        exact Or.inl ⟨"Missing amount or description in request body",
          by simp [POST, jlookup, truthyOpt, missingFieldsBody], by simp [POST, jlookup, truthyOpt]⟩
    | arr xs =>
        exact Or.inl ⟨"Missing amount or description in request body",
          by simp [POST, jlookup, truthyOpt, missingFieldsBody], by simp [POST, jlookup, truthyOpt]⟩
    | obj fs =>
        by_cases hv : (!truthyOpt (jlookup (JsValue.obj fs) "amount") ||
            !truthyOpt (jlookup (JsValue.obj fs) "description")) = true
        · exact Or.inl ⟨"Missing amount or description in request body",
            by simp [POST, hv, missingFieldsBody], by simp [POST, hv]⟩
        · rcases createOrder_cases env world
              ((jlookup (JsValue.obj fs) "amount").getD .null)
              ((jlookup (JsValue.obj fs) "description").getD .null)
              (truthyOpt (jlookup (JsValue.obj fs) "requiresShipping")) with
            ⟨hc, _⟩ | ⟨e, hc⟩ | ⟨tok, e, hc⟩ | ⟨tok, order, hc, hj, _⟩
          · exact Or.inl ⟨"MISSING_PAYPAL_API_CREDENTIALS",
              by simp [POST, hv, hc], by simp [POST, hv, hc]⟩
          · exact Or.inl ⟨e, by simp [POST, hv, hc], by simp [POST, hv, hc]⟩
          · exact Or.inl ⟨e, by simp [POST, hv, hc], by simp [POST, hv, hc]⟩
          · refine Or.inr ⟨by simp [POST, hv, hc], ?_⟩
            refine ⟨orderRequest tok ((jlookup (JsValue.obj fs) "amount").getD .null)
              ((jlookup (JsValue.obj fs) "description").getD .null)
              (truthyOpt (jlookup (JsValue.obj fs) "requiresShipping")), ?_, rfl, ?_⟩
            · simp [POST, hv, hc]
            · rw [show (POST env world (Except.ok (JsValue.obj fs))).1.body = order by
                simp [POST, hv, hc]]
              exact hj

/-- C9: every invocation whose response is 200 issued exactly two outbound
requests: first the token request (a fresh credential exchange; the handler is
a pure function with no token cache, so each invocation re-authenticates), then
the order-creation request. -/
theorem c9_success_exactly_two_calls (env : Env) (world : World)
    (rb : Except String JsValue)
    (h : (POST env world rb).1.status = 200) :
    ∃ tok a d s, (POST env world rb).2 = [tokenRequest env, orderRequest tok a d s] := by
  rcases rb with msg | j
  · simp [POST] at h
  · cases j with
    | null => simp [POST] at h
    | bool b => simp [POST, jlookup, truthyOpt] at h
    | num n => simp [POST, jlookup, truthyOpt] at h
    | str s => simp [POST, jlookup, truthyOpt] at h
    | arr xs => simp [POST, jlookup, truthyOpt] at h
    | obj fs =>
        by_cases hv : (!truthyOpt (jlookup (JsValue.obj fs) "amount") ||
            !truthyOpt (jlookup (JsValue.obj fs) "description")) = true
        · simp [POST, hv] at h
        · rcases createOrder_cases env world
              ((jlookup (JsValue.obj fs) "amount").getD .null)
              ((jlookup (JsValue.obj fs) "description").getD .null)
              (truthyOpt (jlookup (JsValue.obj fs) "requiresShipping")) with
            ⟨hc, _⟩ | ⟨e, hc⟩ | ⟨tok, e, hc⟩ | ⟨tok, order, hc, hj, _⟩
          · simp [POST, hv, hc] at h
          · simp [POST, hv, hc] at h
          · simp [POST, hv, hc] at h
          · exact ⟨tok, (jlookup (JsValue.obj fs) "amount").getD .null,
              (jlookup (JsValue.obj fs) "description").getD .null,
              truthyOpt (jlookup (JsValue.obj fs) "requiresShipping"),
              by simp [POST, hv, hc]⟩

/-- C9 (witness): the successful sample invocation issued exactly the token
request followed by the order-creation request. -/
theorem c9_success_exactly_two_calls_witness :
    ∃ tok a d s, (POST envSome worldSuccess (Except.ok sampleBody)).2 =
      [tokenRequest envSome, orderRequest tok a d s] :=
  c9_success_exactly_two_calls envSome worldSuccess (Except.ok sampleBody) rfl

/-- C10: the handler answers the 400 validation response exactly for the
parsed, non-null bodies whose `amount` or `description` is falsy in the
JavaScript sense: absent, `null`, `false`, the number 0 or the empty string
(see `truthy`); every truthy value, such as the string `0` or any non-empty
string, passes validation. -/
theorem c10_validation_rejects_exactly_falsy (env : Env) (world : World)
    (rb : Except String JsValue) :
    (POST env world rb).1 = ⟨400, missingFieldsBody⟩ ↔
    ∃ j, rb = Except.ok j ∧ j ≠ JsValue.null ∧
      (truthyOpt (jlookup j "amount") = false ∨
        truthyOpt (jlookup j "description") = false) := by
  constructor
  · intro h
    rcases rb with msg | j
    · exact absurd h (by simp [POST, missingFieldsBody])
    · refine ⟨j, rfl, ?_, ?_⟩
      · intro hn
        subst hn
        exact absurd h (by simp [POST, missingFieldsBody])
      · cases j with
        | null => exact absurd h (by simp [POST, missingFieldsBody])
        | bool b => simp [jlookup, truthyOpt]
        | num n => simp [jlookup, truthyOpt]
        | str s => simp [jlookup, truthyOpt]
        | arr xs => simp [jlookup, truthyOpt]
        | obj fs =>
            by_cases hv : (!truthyOpt (jlookup (JsValue.obj fs) "amount") ||
                !truthyOpt (jlookup (JsValue.obj fs) "description")) = true
            · simpa [Bool.or_eq_true, Bool.not_eq_true'] using hv
            · exfalso
              rcases createOrder_cases env world
                  ((jlookup (JsValue.obj fs) "amount").getD .null)
                  ((jlookup (JsValue.obj fs) "description").getD .null)
                  (truthyOpt (jlookup (JsValue.obj fs) "requiresShipping")) with
                ⟨hc, _⟩ | ⟨e, hc⟩ | ⟨tok, e, hc⟩ | ⟨tok, order, hc, hj, _⟩
              · exact absurd h (by simp [POST, hv, hc])
              · exact absurd h (by simp [POST, hv, hc])
              · exact absurd h (by simp [POST, hv, hc])
              · exact absurd h (by simp [POST, hv, hc])
  · rintro ⟨j, rfl, hnull, hmiss⟩
    cases j with
    | null => exact absurd rfl hnull
    | bool b => simp [POST, jlookup, truthyOpt]
    | num n => simp [POST, jlookup, truthyOpt]
    | str s => simp [POST, jlookup, truthyOpt]
    | arr xs => simp [POST, jlookup, truthyOpt]
    | obj fs =>
        have hv : (!truthyOpt (jlookup (JsValue.obj fs) "amount") ||
            !truthyOpt (jlookup (JsValue.obj fs) "description")) = true := by
          rcases hmiss with hm | hm <;> simp [hm]
        simp [POST, hv]
